import Mathlib

/-!
Shallow embedding of `src/draftDbOps.py` (swainBot): tournament-key
normalization and the idempotent multi-table upsert protocol for the
`game`, `team`, `ban` and `pick` tables of `competitiveGameData.db`.

The sqlite database is modelled as lists of row records, one list per
table, in rowid (insertion) order; `cursor.execute(SELECT ...)` followed
by `fetchone()` becomes `List.find?`, and `INSERT` appends a row whose
generated `id` is `length + 1` (rows are never deleted, so sqlite rowids
coincide with positions).  Python exceptions (`KeyError` from a dict
lookup, `AttributeError` from `re.search(...).group(0)` on a failed
search, `NameError` from an undefined variable) are modelled with
`Except PyError`.

The module `championinfo` is not part of the sources; the spec treats it
as an external Champion Resolver with `resolveByName : name -> id |
notFound` and `resolveAlias : name -> canonicalName | notFound`, so it is
modelled here as a pair of abstract functions.
-/

namespace DraftDb

/-- Python runtime errors that the embedded operations can raise. -/
inductive PyError where
  | keyError : String → PyError
  | attributeError : PyError
  | nameError : String → PyError
deriving Repr, DecidableEq

/-- A row of the `game` table:
`(id, tournament, tourn_game_id, blue_teamid, red_teamid, winning_team)`. -/
structure GameRow where
  id : Nat
  tournament : String
  tournGameId : Nat
  blueTeamId : Nat
  redTeamId : Nat
  winningTeam : Nat
deriving Repr, DecidableEq

/-- A row of the `team` table: `(id, region, display_name)`;
`region` is NULL for untracked (wildcard) regions. -/
structure TeamRow where
  id : Nat
  region : Option String
  displayName : String
deriving Repr, DecidableEq

/-- A row of the `ban` table:
`(game_id, champion_id, selection_order, side_id)`; `champion_id` is NULL
for the sentinel entry `"none"` or an unresolvable champion name. -/
structure BanRow where
  gameId : Nat
  championId : Option Nat
  selectionOrder : Nat
  sideId : Nat
deriving Repr, DecidableEq

/-- A row of the `pick` table:
`(game_id, champion_id, position_id, selection_order, side_id)`. -/
structure PickRow where
  gameId : Nat
  championId : Option Nat
  positionId : Nat
  selectionOrder : Nat
  sideId : Nat
deriving Repr, DecidableEq

/-- The four tables of `competitiveGameData.db`, each in rowid order. -/
structure Db where
  games : List GameRow
  teams : List TeamRow
  bans : List BanRow
  picks : List PickRow
deriving Repr, DecidableEq

/-- One record produced by `queryWiki()` (spec section 6): region/season/
split identification fields, the per-split game number, team names, the
declared winner, and the ban and pick name lists for both sides. -/
structure GameData where
  region : String
  season : Option String
  split : Option String
  tournGameId : Nat
  blueTeam : String
  redTeam : String
  winningTeam : Nat
  blueBans : List String
  redBans : List String
  bluePicks : List (String × Nat)
  redPicks : List (String × Nat)
deriving Repr, DecidableEq

/-- Modelled from the spec: the external Champion Resolver of module
`championinfo` (absent from the sources).  `championIdFromName` maps a
champion display name to its numeric id or not-found, and
`convertChampionAlias` maps a name to its canonical alias form or
not-found. -/
structure Resolver where
  championIdFromName : String → Option Nat
  convertChampionAlias : String → Option String

/-- The module-level dict `regionsDict` mapping tracked region names to
their abbreviations. -/
def regionsDict (s : String) : Option String :=
  if s = "North_America" then some "NA"
  else if s = "Europe" then some "EU"
  else if s = "LCK" then some "LCK"
  else if s = "LPL" then some "LPL"
  else if s = "LMS" then some "LMS"
  else none

/-- The module-level dict `internationalEventsDict` mapping international
event names to their abbreviations. -/
def internationalEventsDict (s : String) : Option String :=
  if s = "Mid-Season_Invitational" then some "MSI"
  else if s = "Rift_Rivals" then some "RR"
  else if s = "World_Championship" then some "WRLDS"
  else none

/-- Embedding of `re.search("([0-9]+)", s).group(0)`: the first (leftmost, maximal)
run of decimal digits in the string, or `none` when the string has no
digit (in which case Python raises `AttributeError` on `.group`). -/
def firstDigitRun : List Char → Option String
  | [] => none
  | c :: rest =>
    if c.isDigit then some (String.mk (c :: rest.takeWhile Char.isDigit))
    else firstDigitRun rest

/-- Worker for `stripYearRuns`.  The flag records whether the scan is
currently inside a regex match of `_?[0-9]+_?` whose digit part has
started: in that state further digits are consumed, and one following
underscore is consumed as the trailing `_?`. -/
def stripGo : Bool → List Char → List Char
  | _, [] => []
  | true, c :: rest =>
    if c.isDigit then stripGo true rest
    else if c = '_' then stripGo false rest
    else c :: stripGo false rest
  | false, c :: rest =>
    if c.isDigit then stripGo true rest
    else if c = '_' then
      match rest with
      | [] => [c]
      | d :: rest2 =>
        if d.isDigit then stripGo true rest2
        else c :: stripGo false (d :: rest2)
    else c :: stripGo false rest

/-- Embedding of `"".join(re.split("_?[0-9]+_?", s))`: the string with every
(leftmost, greedy) match of `_?[0-9]+_?` removed — each maximal digit run
together with one optional underscore on each side. -/
def stripYearRuns (l : List Char) : List Char := stripGo false l

/-- The string searched for the year digits (lines 82-85): `season` when
present, else `region`. -/
def yearSource (g : GameData) : String :=
  match g.season with
  | none => g.region
  | some s => s

/-- Function `getTournamentData`: canonical tournament key
`year/split/region_abbrv` (split present) or `year/event_abbrv` (split
absent), lines 71-92 of `draftDbOps.py`. -/
def getTournamentData (g : GameData) : Except PyError String :=
  match firstDigitRun (yearSource g).data with
  | none => .error PyError.attributeError
  | some year =>
    match g.split with
    | none =>
      let event := String.mk (stripYearRuns g.region.data)
      match internationalEventsDict event with
      | none => .error (PyError.keyError event)
      | some ab => .ok (year ++ "/" ++ ab)
    | some sp =>
      match regionsDict g.region with
      | none => .error (PyError.keyError g.region)
      | some ab => .ok (year ++ "/" ++ (sp ++ "/" ++ ab))

/-- Query `SELECT id FROM game WHERE tournament=? AND tourn_game_id=?` with
`fetchone()`: the id of the first matching row, if any. -/
def selectGameId (db : Db) (tournament : String) (tgid : Nat) : Option Nat :=
  (db.games.find? fun r => r.tournament == tournament && r.tournGameId == tgid).map
    (fun r => r.id)

/-- Query `SELECT id FROM team WHERE display_name=?` with `fetchone()`. -/
def selectTeamId (db : Db) (name : String) : Option Nat :=
  (db.teams.find? fun r => r.displayName == name).map (fun r => r.id)

/-- Function `getGameId` (lines 94-117): look up the game by
`(tournament, tourn_game_id)` and return its id.  When the row is
missing, the code prints a warning and executes
`err = insertGame(cursor,[game])`, but `game` is not a name in scope in
`getGameId` (its parameter is `gameData` and no module-level `game`
exists), so Python raises `NameError` before any insert happens and the
`while` loop is exited by the exception. -/
def getGameId (db : Db) (g : GameData) : Except PyError Nat :=
  match getTournamentData g with
  | .error e => .error e
  | .ok tournament =>
    match selectGameId db tournament g.tournGameId with
    | some gid => .ok gid
    | none => .error (PyError.nameError "game")

/-- The body of the inner loop of `insertTeam` (lines 186-191): insert a
`(region, display_name)` row only when no row with that `display_name`
exists. -/
def insertTeamIfAbsent (db : Db) (region : Option String) (name : String) : Db :=
  match db.teams.find? (fun r => r.displayName == name) with
  | some _ => db
  | none =>
    { db with teams := db.teams ++ [{ id := db.teams.length + 1, region := region, displayName := name }] }

/-- Region computation of `insertTeam` (lines 181-184): NULL when `split`
is absent (wildcard region), else `regionsDict[region]` (KeyError when
the region is unknown). -/
def teamRegion (g : GameData) : Except PyError (Option String) :=
  match g.split with
  | none => .ok none
  | some _ =>
    match regionsDict g.region with
    | none => .error (PyError.keyError g.region)
    | some ab => .ok (some ab)

/-- One iteration of `insertTeam`'s outer loop: process the blue team
then the red team of a single record. -/
def insertTeamOne (db : Db) (g : GameData) : Except PyError Db :=
  match teamRegion g with
  | .error e => .error e
  | .ok region =>
    .ok (insertTeamIfAbsent (insertTeamIfAbsent db region g.blueTeam) region g.redTeam)

/-- The outer loop of `insertTeam` over the list of records. -/
def insertTeamList (db : Db) : List GameData → Except PyError Db
  | [] => .ok db
  | g :: rest =>
    match insertTeamOne db g with
    | .error e => .error e
    | .ok db2 => insertTeamList db2 rest

/-- Function `insertTeam` (lines 164-193): returns `status = 1` after the loop. -/
def insertTeam (db : Db) (l : List GameData) : Except PyError (Nat × Db) :=
  match insertTeamList db l with
  | .error e => .error e
  | .ok db2 => .ok (1, db2)

/-- The `while (blueTeamId is None or redTeamId is None)` loop of
`insertGame` (lines 146-156), with explicit fuel: look both team ids up
by display name; when either is missing, call `insertTeam` on this
record and retry.  `.ok none` means the given fuel was exhausted before
the loop finished. -/
def resolveTeamIds : Nat → Db → GameData → Except PyError (Option (Nat × Nat × Db))
  | 0, _, _ => .ok none
  | fuel + 1, db, g =>
    match selectTeamId db g.blueTeam, selectTeamId db g.redTeam with
    | some b, some r => .ok (some (b, r, db))
    | _, _ =>
      match insertTeam db [g] with
      | .error e => .error e
      | .ok (_, db2) => resolveTeamIds fuel db2 g

/-- One iteration of `insertGame`'s loop (lines 132-160): skip when the
`(tournament, tourn_game_id)` pair already has a row, else resolve the
two team ids and insert the game row. -/
def insertGameOne (fuel : Nat) (db : Db) (g : GameData) : Except PyError (Option Db) :=
  match getTournamentData g with
  | .error e => .error e
  | .ok tournamentData =>
    match selectGameId db tournamentData g.tournGameId with
    | some _ => .ok (some db)
    | none =>
      match resolveTeamIds fuel db g with
      | .error e => .error e
      | .ok none => .ok none
      | .ok (some (b, r, db2)) =>
        .ok (some { db2 with games := db2.games ++ [{ id := db2.games.length + 1, tournament := tournamentData, tournGameId := g.tournGameId, blueTeamId := b, redTeamId := r, winningTeam := g.winningTeam }] })

/-- The loop of `insertGame` over the list of records. -/
def insertGameList (fuel : Nat) (db : Db) : List GameData → Except PyError (Option Db)
  | [] => .ok (some db)
  | g :: rest =>
    match insertGameOne fuel db g with
    | .error e => .error e
    | .ok none => .ok none
    | .ok (some db2) => insertGameList fuel db2 rest

/-- Function `insertGame` (lines 119-162): returns `status = 1` after the loop.
`.ok none` propagates fuel exhaustion of the inner team-resolution
loop. -/
def insertGame (fuel : Nat) (db : Db) (l : List GameData) : Except PyError (Option (Nat × Db)) :=
  match insertGameList fuel db l with
  | .error e => .error e
  | .ok none => .ok none
  | .ok (some db2) => .ok (some (1, db2))

/-- The champion-resolution chain of `insertBan`/`insertPick`
(lines 228-231, 272-276): try `championIdFromName` on the literal name;
on failure convert the name through `convertChampionAlias` and retry.
Modelled from the spec: `championinfo` is absent from the sources, and
per the spec an alias miss is a not-found (null id), not a crash. -/
def resolveChampion (R : Resolver) (name : String) : Option Nat :=
  match R.championIdFromName name with
  | some cid => some cid
  | none =>
    match R.convertChampionAlias name with
    | some canonical => R.championIdFromName canonical
    | none => none

/-- The per-entry champion id: NULL for the sentinel `"none"`, else the
resolution chain. -/
def selectionChampionId (R : Resolver) (name : String) : Option Nat :=
  if name = "none" then none else resolveChampion R name

/-- The inner loop of `insertBan` (lines 221-234) for one side: one row
per entry, `selection_order` incremented before each insert (`order` is
the value before the entry, so the first row gets `order + 1`). -/
def banRowsFor (R : Resolver) (gid side : Nat) : Nat → List String → List BanRow
  | _, [] => []
  | order, name :: rest =>
    { gameId := gid, championId := selectionChampionId R name, selectionOrder := order + 1, sideId := side } :: banRowsFor R gid side (order + 1) rest

/-- One iteration of `insertBan`'s loop (lines 209-234): resolve the game
id, skip when any ban row for it exists, else write blue rows (side 0)
then red rows (side 1). -/
def insertBanOne (R : Resolver) (db : Db) (g : GameData) : Except PyError Db :=
  match getTournamentData g with
  | .error e => .error e
  | .ok _ =>
    match getGameId db g with
    | .error e => .error e
    | .ok gid =>
      match db.bans.find? (fun b => b.gameId == gid) with
      | some _ => .ok db
      | none =>
        .ok { db with bans := db.bans ++ banRowsFor R gid 0 0 g.blueBans ++ banRowsFor R gid 1 0 g.redBans }

/-- The loop of `insertBan` over the list of records. -/
def insertBanList (R : Resolver) (db : Db) : List GameData → Except PyError Db
  | [] => .ok db
  | g :: rest =>
    match insertBanOne R db g with
    | .error e => .error e
    | .ok db2 => insertBanList R db2 rest

/-- Function `insertBan` (lines 195-236): returns `status = 1` after the loop. -/
def insertBan (R : Resolver) (db : Db) (l : List GameData) : Except PyError (Nat × Db) :=
  match insertBanList R db l with
  | .error e => .error e
  | .ok db2 => .ok (1, db2)

/-- The inner loop of `insertPick` (lines 262-279) for one side: as for
bans, with the `position_id` taken from the entry. -/
def pickRowsFor (R : Resolver) (gid side : Nat) : Nat → List (String × Nat) → List PickRow
  | _, [] => []
  | order, (name, pos) :: rest =>
    { gameId := gid, championId := selectionChampionId R name, positionId := pos, selectionOrder := order + 1, sideId := side } :: pickRowsFor R gid side (order + 1) rest

/-- One iteration of `insertPick`'s loop (lines 252-279). -/
def insertPickOne (R : Resolver) (db : Db) (g : GameData) : Except PyError Db :=
  match getTournamentData g with
  | .error e => .error e
  | .ok _ =>
    match getGameId db g with
    | .error e => .error e
    | .ok gid =>
      match db.picks.find? (fun p => p.gameId == gid) with
      | some _ => .ok db
      | none =>
        .ok { db with picks := db.picks ++ pickRowsFor R gid 0 0 g.bluePicks ++ pickRowsFor R gid 1 0 g.redPicks }

/-- The loop of `insertPick` over the list of records. -/
def insertPickList (R : Resolver) (db : Db) : List GameData → Except PyError Db
  | [] => .ok db
  | g :: rest =>
    match insertPickOne R db g with
    | .error e => .error e
    | .ok db2 => insertPickList R db2 rest

/-- Function `insertPick` (lines 238-281): returns `status = 1` after the loop. -/
def insertPick (R : Resolver) (db : Db) (l : List GameData) : Except PyError (Nat × Db) :=
  match insertPickList R db l with
  | .error e => .error e
  | .ok db2 => .ok (1, db2)

/-- The empty database, as created by a fresh schema. -/
def emptyDb : Db := { games := [], teams := [], bans := [], picks := [] }

/-- Example record: the 2019 Mid-Season Invitational (split absent). -/
def exampleMSI : GameData :=
  { region := "2019_Mid-Season_Invitational", season := none, split := none,
    tournGameId := 1, blueTeam := "TL", redTeam := "IG", winningTeam := 1,
    blueBans := ["A", "B", "none"], redBans := ["C"],
    bluePicks := [("A", 1)], redPicks := [("D", 2)] }

/-- Example record: 2017 Summer split in Europe (split present). -/
def exampleEU : GameData :=
  { region := "Europe", season := some "2017_Season", split := some "Summer",
    tournGameId := 2, blueTeam := "FNC", redTeam := "G2", winningTeam := 0,
    blueBans := ["A", "B", "none"], redBans := ["C"],
    bluePicks := [("A", 1)], redPicks := [] }

/-! ### Helper lemmas about selects and inserts -/

theorem find?_append_left {α} {l1 l2 : List α} {p : α → Bool} {x : α}
    (h : l1.find? p = some x) : (l1 ++ l2).find? p = some x := by
  rw [List.find?_append, h]; rfl

theorem find?_append_right {α} {l1 l2 : List α} {p : α → Bool}
    (h : l1.find? p = none) : (l1 ++ l2).find? p = l2.find? p := by
  rw [List.find?_append, h, Option.none_or]

theorem insertTeamIfAbsent_games (db : Db) (r : Option String) (n : String) :
    (insertTeamIfAbsent db r n).games = db.games ∧
    (insertTeamIfAbsent db r n).bans = db.bans ∧
    (insertTeamIfAbsent db r n).picks = db.picks := by
  unfold insertTeamIfAbsent
  cases db.teams.find? (fun t => t.displayName == n) <;> simp

theorem insertTeamIfAbsent_teams (db : Db) (r : Option String) (n : String) :
    ∃ l, (insertTeamIfAbsent db r n).teams = db.teams ++ l := by
  unfold insertTeamIfAbsent
  cases db.teams.find? (fun t => t.displayName == n) <;> simp

theorem selectTeamId_insertTeamIfAbsent_of_some {db : Db} {r : Option String}
    {n m : String} {i : Nat} (h : selectTeamId db m = some i) :
    selectTeamId (insertTeamIfAbsent db r n) m = some i := by
  unfold selectTeamId at h ⊢
  obtain ⟨l, hl⟩ := insertTeamIfAbsent_teams db r n
  rw [hl]
  cases hf : db.teams.find? (fun t => t.displayName == m) with
  | none => rw [hf] at h; simp at h
  | some x =>
    rw [hf] at h
    rw [find?_append_left hf]
    exact h

theorem selectTeamId_insertTeamIfAbsent_self (db : Db) (r : Option String) (n : String) :
    (selectTeamId (insertTeamIfAbsent db r n) n).isSome := by
  unfold insertTeamIfAbsent selectTeamId
  cases hf : db.teams.find? (fun t => t.displayName == n) with
  | some x => simp [hf]
  | none => simp [hf]

theorem insertTeamOne_inv {db db2 : Db} {g : GameData}
    (h : insertTeamOne db g = .ok db2) :
    db2.games = db.games ∧ db2.bans = db.bans ∧ db2.picks = db.picks ∧
    ∃ l, db2.teams = db.teams ++ l := by
  unfold insertTeamOne at h
  cases hr : teamRegion g with
  | error e => rw [hr] at h; exact absurd h (by simp)
  | ok region =>
    rw [hr] at h
    simp only [Except.ok.injEq] at h
    subst h
    obtain ⟨hg1, hb1, hp1⟩ := insertTeamIfAbsent_games db region g.blueTeam
    obtain ⟨hg2, hb2, hp2⟩ :=
      insertTeamIfAbsent_games (insertTeamIfAbsent db region g.blueTeam) region g.redTeam
    obtain ⟨l1, hl1⟩ := insertTeamIfAbsent_teams db region g.blueTeam
    obtain ⟨l2, hl2⟩ :=
      insertTeamIfAbsent_teams (insertTeamIfAbsent db region g.blueTeam) region g.redTeam
    refine ⟨hg2.trans hg1, hb2.trans hb1, hp2.trans hp1, l1 ++ l2, ?_⟩
    rw [hl2, hl1, List.append_assoc]

theorem insertTeamOne_resolves {db db2 : Db} {g : GameData}
    (h : insertTeamOne db g = .ok db2) :
    (selectTeamId db2 g.blueTeam).isSome ∧ (selectTeamId db2 g.redTeam).isSome := by
  unfold insertTeamOne at h
  cases hr : teamRegion g with
  | error e => rw [hr] at h; exact absurd h (by simp)
  | ok region =>
    rw [hr] at h
    simp only [Except.ok.injEq] at h
    subst h
    constructor
    · have hblue := selectTeamId_insertTeamIfAbsent_self db region g.blueTeam
      obtain ⟨i, hi⟩ := Option.isSome_iff_exists.mp hblue
      exact Option.isSome_iff_exists.mpr
        ⟨i, selectTeamId_insertTeamIfAbsent_of_some hi⟩
    · exact selectTeamId_insertTeamIfAbsent_self _ region g.redTeam

theorem insertTeam_singleton {db db2 : Db} {g : GameData} {s : Nat}
    (h : insertTeam db [g] = .ok (s, db2)) :
    s = 1 ∧ insertTeamOne db g = .ok db2 := by
  unfold insertTeam insertTeamList at h
  cases ho : insertTeamOne db g with
  | error e => rw [ho] at h; exact absurd h (by simp)
  | ok dbx =>
    rw [ho] at h
    simp only [insertTeamList, Except.ok.injEq, Prod.mk.injEq] at h
    exact ⟨h.1.symm, by rw [h.2]⟩

/-- The team-resolution loop reaches a decision in at most two
iterations: extra fuel beyond 2 never changes the outcome. -/
theorem resolveTeamIds_fuel_irrelevant (fuel : Nat) (db : Db) (g : GameData) :
    resolveTeamIds (fuel + 2) db g = resolveTeamIds 2 db g := by
  show resolveTeamIds (fuel + 1 + 1) db g = resolveTeamIds (1 + 1) db g
  unfold resolveTeamIds
  cases hb : selectTeamId db g.blueTeam with
  | none =>
    cases ht : insertTeam db [g] with
    | error e => rfl
    | ok p =>
      obtain ⟨s, db2⟩ := p
      obtain ⟨-, hone⟩ := insertTeam_singleton ht
      obtain ⟨hb2, hr2⟩ := insertTeamOne_resolves hone
      obtain ⟨i, hi⟩ := Option.isSome_iff_exists.mp hb2
      obtain ⟨j, hj⟩ := Option.isSome_iff_exists.mp hr2
      unfold resolveTeamIds
      rw [hi, hj]
  | some b =>
    cases hr : selectTeamId db g.redTeam with
    | none =>
      cases ht : insertTeam db [g] with
      | error e => rfl
      | ok p =>
        obtain ⟨s, db2⟩ := p
        obtain ⟨-, hone⟩ := insertTeam_singleton ht
        obtain ⟨hb2, hr2⟩ := insertTeamOne_resolves hone
        obtain ⟨i, hi⟩ := Option.isSome_iff_exists.mp hb2
        obtain ⟨j, hj⟩ := Option.isSome_iff_exists.mp hr2
        unfold resolveTeamIds
        rw [hi, hj]
    | some r => rfl

/-- With fuel 2 the loop never runs out of fuel: after one `insertTeam`
both display names are present, so the second iteration succeeds. -/
theorem resolveTeamIds_two_ne_none (db : Db) (g : GameData) :
    resolveTeamIds 2 db g ≠ .ok none := by
  show resolveTeamIds (1 + 1) db g ≠ .ok none
  unfold resolveTeamIds
  cases hb : selectTeamId db g.blueTeam with
  | none =>
    cases ht : insertTeam db [g] with
    | error e => simp
    | ok p =>
      obtain ⟨s, db2⟩ := p
      obtain ⟨-, hone⟩ := insertTeam_singleton ht
      obtain ⟨hb2, hr2⟩ := insertTeamOne_resolves hone
      obtain ⟨i, hi⟩ := Option.isSome_iff_exists.mp hb2
      obtain ⟨j, hj⟩ := Option.isSome_iff_exists.mp hr2
      unfold resolveTeamIds
      rw [hi, hj]
      simp
  | some b =>
    cases hr : selectTeamId db g.redTeam with
    | none =>
      cases ht : insertTeam db [g] with
      | error e => simp
      | ok p =>
        obtain ⟨s, db2⟩ := p
        obtain ⟨-, hone⟩ := insertTeam_singleton ht
        obtain ⟨hb2, hr2⟩ := insertTeamOne_resolves hone
        obtain ⟨i, hi⟩ := Option.isSome_iff_exists.mp hb2
        obtain ⟨j, hj⟩ := Option.isSome_iff_exists.mp hr2
        unfold resolveTeamIds
        rw [hi, hj]
        simp
    | some r => simp

theorem resolveTeamIds_inv {fuel : Nat} {db db2 : Db} {g : GameData} {b r : Nat}
    (h : resolveTeamIds fuel db g = .ok (some (b, r, db2))) :
    db2.games = db.games ∧ db2.bans = db.bans ∧ db2.picks = db.picks := by
  induction fuel generalizing db with
  | zero => exact absurd h (by simp [resolveTeamIds])
  | succ n ih =>
    unfold resolveTeamIds at h
    cases hb : selectTeamId db g.blueTeam with
    | none =>
      rw [hb] at h
      cases ht : insertTeam db [g] with
      | error e => rw [ht] at h; exact absurd h (by simp)
      | ok p =>
        obtain ⟨s, dbx⟩ := p
        rw [ht] at h
        obtain ⟨-, hone⟩ := insertTeam_singleton ht
        obtain ⟨hg, hbn, hp, -⟩ := insertTeamOne_inv hone
        obtain ⟨hg2, hbn2, hp2⟩ := ih h
        exact ⟨hg2.trans hg, hbn2.trans hbn, hp2.trans hp⟩
    | some bv =>
      rw [hb] at h
      cases hr : selectTeamId db g.redTeam with
      | none =>
        rw [hr] at h
        cases ht : insertTeam db [g] with
        | error e => rw [ht] at h; exact absurd h (by simp)
        | ok p =>
          obtain ⟨s, dbx⟩ := p
          rw [ht] at h
          obtain ⟨-, hone⟩ := insertTeam_singleton ht
          obtain ⟨hg, hbn, hp, -⟩ := insertTeamOne_inv hone
          obtain ⟨hg2, hbn2, hp2⟩ := ih h
          exact ⟨hg2.trans hg, hbn2.trans hbn, hp2.trans hp⟩
      | some rv =>
        rw [hr] at h
        simp only [Except.ok.injEq, Option.some.injEq, Prod.mk.injEq] at h
        obtain ⟨-, -, hdb⟩ := h
        subst hdb
        exact ⟨rfl, rfl, rfl⟩

theorem insertGame_singleton {fuel : Nat} {db db2 : Db} {g : GameData} {s : Nat}
    (h : insertGame fuel db [g] = .ok (some (s, db2))) :
    s = 1 ∧ insertGameOne fuel db g = .ok (some db2) := by
  unfold insertGame insertGameList at h
  cases ho : insertGameOne fuel db g with
  | error e => rw [ho] at h; exact absurd h (by simp)
  | ok o =>
    rw [ho] at h
    cases o with
    | none => exact absurd h (by simp)
    | some dbx =>
      simp only [insertGameList, Except.ok.injEq, Option.some.injEq, Prod.mk.injEq] at h
      exact ⟨h.1.symm, by rw [h.2]⟩

theorem selectGameId_ext {db db' : Db} (h : db.games = db'.games)
    (t : String) (i : Nat) : selectGameId db t i = selectGameId db' t i := by
  unfold selectGameId; rw [h]

theorem selectGameId_of_games_append {db db' : Db} {t : String} {tgid : Nat}
    {row : GameRow} (hg : db'.games = db.games ++ [row])
    (hnone : selectGameId db t tgid = none)
    (ht : row.tournament = t) (htg : row.tournGameId = tgid) :
    selectGameId db' t tgid = some row.id := by
  unfold selectGameId at hnone ⊢
  rw [hg]
  cases hf : db.games.find? (fun r => r.tournament == t && r.tournGameId == tgid) with
  | some x => rw [hf] at hnone; simp at hnone
  | none =>
    rw [find?_append_right hf]
    simp [List.find?, ht, htg]

/-- C1: `insertGame` is idempotent at the `(tournament, tourn_game_id)`
key: when a record not yet present is inserted, exactly one `game` row is
added, a second call with the identical input finds the existing row,
skips it, leaves the database unchanged and still succeeds, and the
resolved game identifier is the same (the one row created by the first
call). -/
theorem insertGame_idempotent (fuel : Nat) (db db1 : Db) (g : GameData) (t : String)
    (ht : getTournamentData g = .ok t)
    (hnone : selectGameId db t g.tournGameId = none)
    (h : insertGame fuel db [g] = .ok (some (1, db1))) :
    db1.games.length = db.games.length + 1 ∧
    insertGame fuel db1 [g] = .ok (some (1, db1)) ∧
    getGameId db1 g = .ok (db.games.length + 1) := by
  obtain ⟨-, hone⟩ := insertGame_singleton h
  unfold insertGameOne at hone
  rw [ht] at hone
  simp only [hnone] at hone
  cases hres : resolveTeamIds fuel db g with
  | error e => rw [hres] at hone; exact absurd hone (by simp)
  | ok o =>
    rw [hres] at hone
    cases o with
    | none => exact absurd hone (by simp)
    | some p =>
      obtain ⟨b, r, db2⟩ := p
      simp only [Except.ok.injEq, Option.some.injEq] at hone
      obtain ⟨hg2, -, -⟩ := resolveTeamIds_inv hres
      have hgames : db1.games = db.games ++
          [{ id := db2.games.length + 1, tournament := t, tournGameId := g.tournGameId,
             blueTeamId := b, redTeamId := r, winningTeam := g.winningTeam }] := by
        rw [← hone]
        show db2.games ++ _ = _
        rw [hg2]
      have hsel : selectGameId db1 t g.tournGameId =
          some (db2.games.length + 1) :=
        selectGameId_of_games_append hgames hnone rfl rfl
      refine ⟨?_, ?_, ?_⟩
      · rw [hgames, List.length_append]; rfl
      · simp only [insertGame, insertGameList, insertGameOne, ht, hsel]
      · simp only [getGameId, ht, hsel, hg2]

/-- The database reached from `emptyDb` by inserting `exampleEU`:
two team rows and one game row. -/
def exampleDbEU : Db :=
  { games := [{ id := 1, tournament := "2017/Summer/EU", tournGameId := 2,
                blueTeamId := 1, redTeamId := 2, winningTeam := 0 }],
    teams := [{ id := 1, region := some "EU", displayName := "FNC" },
              { id := 2, region := some "EU", displayName := "G2" }],
    bans := [], picks := [] }

/-- Witness for C1 at a concrete input. -/
theorem insertGame_idempotent_witness :
    exampleDbEU.games.length = emptyDb.games.length + 1 ∧
    insertGame 2 exampleDbEU [exampleEU] = .ok (some (1, exampleDbEU)) ∧
    getGameId exampleDbEU exampleEU = .ok (emptyDb.games.length + 1) :=
  insertGame_idempotent 2 emptyDb exampleDbEU exampleEU "2017/Summer/EU" rfl rfl rfl

theorem insertBan_singleton {R : Resolver} {db db2 : Db} {g : GameData} {s : Nat}
    (h : insertBan R db [g] = .ok (s, db2)) :
    s = 1 ∧ insertBanOne R db g = .ok db2 := by
  unfold insertBan insertBanList at h
  cases ho : insertBanOne R db g with
  | error e => rw [ho] at h; exact absurd h (by simp)
  | ok dbx =>
    rw [ho] at h
    simp only [insertBanList, Except.ok.injEq, Prod.mk.injEq] at h
    exact ⟨h.1.symm, by rw [h.2]⟩

theorem insertPick_singleton {R : Resolver} {db db2 : Db} {g : GameData} {s : Nat}
    (h : insertPick R db [g] = .ok (s, db2)) :
    s = 1 ∧ insertPickOne R db g = .ok db2 := by
  unfold insertPick insertPickList at h
  cases ho : insertPickOne R db g with
  | error e => rw [ho] at h; exact absurd h (by simp)
  | ok dbx =>
    rw [ho] at h
    simp only [insertPickList, Except.ok.injEq, Prod.mk.injEq] at h
    exact ⟨h.1.symm, by rw [h.2]⟩

theorem getGameId_ok {db : Db} {g : GameData} {gid : Nat}
    (h : getGameId db g = .ok gid) :
    ∃ t, getTournamentData g = .ok t ∧ selectGameId db t g.tournGameId = some gid := by
  unfold getGameId at h
  cases htd : getTournamentData g with
  | error e => rw [htd] at h; exact absurd h (by simp)
  | ok t =>
    rw [htd] at h
    simp only at h
    cases hsel : selectGameId db t g.tournGameId with
    | none => rw [hsel] at h; exact absurd h (by simp)
    | some i =>
      rw [hsel] at h
      simp only [Except.ok.injEq] at h
      exact ⟨t, rfl, by rw [← h]; exact hsel⟩

theorem getGameId_games_eq {db db' : Db} (h : db.games = db'.games) (g : GameData) :
    getGameId db g = getGameId db' g := by
  unfold getGameId
  cases getTournamentData g with
  | error e => rfl
  | ok t => simp only [selectGameId_ext h]

theorem banRowsFor_gameId (R : Resolver) (gid side : Nat) :
    ∀ start l row, row ∈ banRowsFor R gid side start l → row.gameId = gid := by
  intro start l
  induction l generalizing start with
  | nil => intro row hrow; exact absurd hrow (by simp [banRowsFor])
  | cons name rest ih =>
    intro row hrow
    rcases List.mem_cons.mp hrow with h | h
    · rw [h]
    · exact ih (start + 1) row h

theorem pickRowsFor_gameId (R : Resolver) (gid side : Nat) :
    ∀ start l row, row ∈ pickRowsFor R gid side start l → row.gameId = gid := by
  intro start l
  induction l generalizing start with
  | nil => intro row hrow; exact absurd hrow (by simp [pickRowsFor])
  | cons entry rest ih =>
    intro row hrow
    obtain ⟨name, pos⟩ := entry
    rcases List.mem_cons.mp hrow with h | h
    · rw [h]
    · exact ih (start + 1) row h

/-- C2: the draft writes are idempotent at game granularity: a second
`insertBan` call for the same record is a no-op that still succeeds, and
whenever any ban row for the resolved game id is already present the
whole write is skipped; the same holds for `insertPick` on the `pick`
table. -/
theorem insertBan_insertPick_idempotent (R : Resolver) (db dbB dbP : Db) (g : GameData) :
    (insertBan R db [g] = .ok (1, dbB) → insertBan R dbB [g] = .ok (1, dbB)) ∧
    (∀ gid, getGameId db g = .ok gid →
      (db.bans.find? (fun b => b.gameId == gid)).isSome →
      insertBan R db [g] = .ok (1, db)) ∧
    (insertPick R db [g] = .ok (1, dbP) → insertPick R dbP [g] = .ok (1, dbP)) ∧
    (∀ gid, getGameId db g = .ok gid →
      (db.picks.find? (fun p => p.gameId == gid)).isSome →
      insertPick R db [g] = .ok (1, db)) := by
  refine ⟨?_, ?_, ?_, ?_⟩
  · intro h
    obtain ⟨-, hone⟩ := insertBan_singleton h
    unfold insertBanOne at hone
    cases htd : getTournamentData g with
    | error e => rw [htd] at hone; exact absurd hone (by simp)
    | ok t =>
      rw [htd] at hone
      simp only at hone
      cases hgid : getGameId db g with
      | error e => rw [hgid] at hone; exact absurd hone (by simp)
      | ok gid =>
        rw [hgid] at hone
        simp only at hone
        cases hex : db.bans.find? (fun b => b.gameId == gid) with
        | some x =>
          rw [hex] at hone
          simp only [Except.ok.injEq] at hone
          rw [← hone]
          rw [← hone] at h
          exact h
        | none =>
          rw [hex] at hone
          simp only [Except.ok.injEq] at hone
          have hgamesB : dbB.games = db.games := by rw [← hone]
          have hgid2 : getGameId dbB g = .ok gid := by
            rw [getGameId_games_eq hgamesB g]; exact hgid
          have hbansB : dbB.bans =
              db.bans ++ (banRowsFor R gid 0 0 g.blueBans ++ banRowsFor R gid 1 0 g.redBans) := by
            rw [← hone]
            show db.bans ++ _ ++ _ = _
            rw [List.append_assoc]
          cases hrows : banRowsFor R gid 0 0 g.blueBans ++ banRowsFor R gid 1 0 g.redBans with
          | nil =>
            have hdbB : dbB = db := by
              rw [← hone]
              have h0 : banRowsFor R gid 0 0 g.blueBans = ([] : List BanRow) :=
                (List.append_eq_nil.mp hrows).1
              have h1 : banRowsFor R gid 1 0 g.redBans = ([] : List BanRow) :=
                (List.append_eq_nil.mp hrows).2
              rw [h0, h1]
              simp
            rw [hdbB]
            rw [hdbB] at h
            exact h
          | cons row rest =>
            have hmem : row ∈ banRowsFor R gid 0 0 g.blueBans ++ banRowsFor R gid 1 0 g.redBans := by
              rw [hrows]; exact List.mem_cons_self row rest
            have hrowgid : row.gameId = gid := by
              rcases List.mem_append.mp hmem with hm | hm
              · exact banRowsFor_gameId R gid 0 0 g.blueBans row hm
              · exact banRowsFor_gameId R gid 1 0 g.redBans row hm
            have hfind : dbB.bans.find? (fun b => b.gameId == gid) = some row := by
              rw [hbansB, find?_append_right hex, hrows]
              simp [List.find?, hrowgid]
            simp only [insertBan, insertBanList, insertBanOne, htd, hgid2, hfind]
  · intro gid hgid hex
    obtain ⟨t, htd, -⟩ := getGameId_ok hgid
    obtain ⟨x, hx⟩ := Option.isSome_iff_exists.mp hex
    simp only [insertBan, insertBanList, insertBanOne, htd, hgid, hx]
  · intro h
    obtain ⟨-, hone⟩ := insertPick_singleton h
    unfold insertPickOne at hone
    cases htd : getTournamentData g with
    | error e => rw [htd] at hone; exact absurd hone (by simp)
    | ok t =>
      rw [htd] at hone
      simp only at hone
      cases hgid : getGameId db g with
      | error e => rw [hgid] at hone; exact absurd hone (by simp)
      | ok gid =>
        rw [hgid] at hone
        simp only at hone
        cases hex : db.picks.find? (fun p => p.gameId == gid) with
        | some x =>
          rw [hex] at hone
          simp only [Except.ok.injEq] at hone
          rw [← hone]
          rw [← hone] at h
          exact h
        | none =>
          rw [hex] at hone
          simp only [Except.ok.injEq] at hone
          have hgamesP : dbP.games = db.games := by rw [← hone]
          have hgid2 : getGameId dbP g = .ok gid := by
            rw [getGameId_games_eq hgamesP g]; exact hgid
          have hpicksP : dbP.picks =
              db.picks ++ (pickRowsFor R gid 0 0 g.bluePicks ++ pickRowsFor R gid 1 0 g.redPicks) := by
            rw [← hone]
            show db.picks ++ _ ++ _ = _
            rw [List.append_assoc]
          cases hrows : pickRowsFor R gid 0 0 g.bluePicks ++ pickRowsFor R gid 1 0 g.redPicks with
          | nil =>
            have hdbP : dbP = db := by
              rw [← hone]
              have h0 : pickRowsFor R gid 0 0 g.bluePicks = ([] : List PickRow) :=
                (List.append_eq_nil.mp hrows).1
              have h1 : pickRowsFor R gid 1 0 g.redPicks = ([] : List PickRow) :=
                (List.append_eq_nil.mp hrows).2
              rw [h0, h1]
              simp
            rw [hdbP]
            rw [hdbP] at h
            exact h
          | cons row rest =>
            have hmem : row ∈ pickRowsFor R gid 0 0 g.bluePicks ++ pickRowsFor R gid 1 0 g.redPicks := by
              rw [hrows]; exact List.mem_cons_self row rest
            have hrowgid : row.gameId = gid := by
              rcases List.mem_append.mp hmem with hm | hm
              · exact pickRowsFor_gameId R gid 0 0 g.bluePicks row hm
              · exact pickRowsFor_gameId R gid 1 0 g.redPicks row hm
            have hfind : dbP.picks.find? (fun p => p.gameId == gid) = some row := by
              rw [hpicksP, find?_append_right hex, hrows]
              simp [List.find?, hrowgid]
            simp only [insertPick, insertPickList, insertPickOne, htd, hgid2, hfind]
  · intro gid hgid hex
    obtain ⟨t, htd, -⟩ := getGameId_ok hgid
    obtain ⟨x, hx⟩ := Option.isSome_iff_exists.mp hex
    simp only [insertPick, insertPickList, insertPickOne, htd, hgid, hx]

/-- A concrete Champion Resolver: direct names A/B/C/D/Blitzcrank, and
the alias Blitz for Blitzcrank. -/
def exampleResolver : Resolver :=
  { championIdFromName := fun n =>
      if n = "A" then some 10 else if n = "B" then some 11
      else if n = "C" then some 12 else if n = "D" then some 14
      else if n = "Blitzcrank" then some 13 else none,
    convertChampionAlias := fun n =>
      if n = "Blitz" then some "Blitzcrank" else none }

/-- Database `exampleDbEU` after `insertBan exampleResolver _ [exampleEU]`. -/
def exampleDbBans : Db :=
  { exampleDbEU with bans :=
      [{ gameId := 1, championId := some 10, selectionOrder := 1, sideId := 0 },
       { gameId := 1, championId := some 11, selectionOrder := 2, sideId := 0 },
       { gameId := 1, championId := none, selectionOrder := 3, sideId := 0 },
       { gameId := 1, championId := some 12, selectionOrder := 1, sideId := 1 }] }

/-- Database `exampleDbEU` after `insertPick exampleResolver _ [exampleEU]`. -/
def exampleDbPicks : Db :=
  { exampleDbEU with picks :=
      [{ gameId := 1, championId := some 10, positionId := 1,
         selectionOrder := 1, sideId := 0 }] }

/-- Witness for C2 at a concrete input. -/
theorem insertBan_insertPick_idempotent_witness :
    insertBan exampleResolver exampleDbBans [exampleEU] = .ok (1, exampleDbBans) ∧
    insertPick exampleResolver exampleDbPicks [exampleEU] = .ok (1, exampleDbPicks) :=
  ⟨(insertBan_insertPick_idempotent exampleResolver exampleDbEU exampleDbBans
      exampleDbPicks exampleEU).1 rfl,
   (insertBan_insertPick_idempotent exampleResolver exampleDbEU exampleDbBans
      exampleDbPicks exampleEU).2.2.1 rfl⟩

/-- C3: tournament-key normalization: the canonical key is
`year ++ "/" ++ body`, where the year is the first digit run of `season`
when present and of `region` otherwise; when `split` is present the body
is `split ++ "/" ++ abbreviation(region)`, and when it is absent the body
is the international-event abbreviation of the year-stripped region; in
particular the 2019 Mid-Season Invitational record normalizes to
`"2019/MSI"`. -/
theorem getTournamentData_normalizes (g : GameData) (y ab : String) :
    getTournamentData exampleMSI = .ok "2019/MSI" ∧
    (∀ sp, g.split = some sp → firstDigitRun (yearSource g).data = some y →
      regionsDict g.region = some ab →
      getTournamentData g = .ok (y ++ "/" ++ (sp ++ "/" ++ ab))) ∧
    (g.split = none → firstDigitRun (yearSource g).data = some y →
      internationalEventsDict (String.mk (stripYearRuns g.region.data)) = some ab →
      getTournamentData g = .ok (y ++ "/" ++ ab)) := by
  refine ⟨rfl, ?_, ?_⟩
  · intro sp hsp hy hab
    simp only [getTournamentData, hy, hsp, hab]
  · intro hsp hy hab
    simp only [getTournamentData, hy, hsp, hab]

/-- Witness for C3 at concrete inputs. -/
theorem getTournamentData_normalizes_witness :
    getTournamentData exampleEU = .ok ("2017" ++ "/" ++ ("Summer" ++ "/" ++ "EU")) ∧
    getTournamentData exampleMSI = .ok ("2019" ++ "/" ++ "MSI") :=
  ⟨(getTournamentData_normalizes exampleEU "2017" "EU").2.1 "Summer" rfl rfl rfl,
   (getTournamentData_normalizes exampleMSI "2019" "MSI").2.2 rfl rfl rfl⟩

/-- C4: for a game whose ban rows are not yet present, `insertBan`
appends the blue-side rows (side 0) then the red-side rows (side 1), in
each side's original order, with `selection_order` counting from 1 and
incrementing per entry; sentinel `"none"` entries consume a slot and get
a null champion id — blue bans `["A","B","none"]` give selection orders
`[1,2,3]` with the third champion id null. -/
theorem insertBan_ordering (R : Resolver) (db : Db) (g : GameData) (gid : Nat) :
    (getGameId db g = .ok gid →
      db.bans.find? (fun b => b.gameId == gid) = none →
      insertBan R db [g] = .ok (1,
        { db with bans := (db.bans ++ banRowsFor R gid 0 0 g.blueBans
            ++ banRowsFor R gid 1 0 g.redBans) })) ∧
    (∀ side start l,
      ((banRowsFor R gid side start l).map fun r => r.selectionOrder)
        = List.range' (start + 1) l.length ∧
      ∀ row ∈ banRowsFor R gid side start l, row.sideId = side) ∧
    ((banRowsFor R gid 0 0 ["A", "B", "none"]).map fun r => r.selectionOrder)
        = [1, 2, 3] ∧
    ((banRowsFor R gid 0 0 ["A", "B", "none"]).map fun r => r.championId)
        = [resolveChampion R "A", resolveChampion R "B", none] := by
  refine ⟨?_, ?_, rfl, rfl⟩
  · intro hgid hex
    obtain ⟨t, htd, -⟩ := getGameId_ok hgid
    simp only [insertBan, insertBanList, insertBanOne, htd, hgid, hex]
  · intro side start l
    induction l generalizing start with
    | nil => exact ⟨rfl, by intro row hrow; exact absurd hrow (by simp [banRowsFor])⟩
    | cons name rest ih =>
      constructor
      · have := (ih (start + 1)).1
        simp only [banRowsFor, List.map_cons, this, List.length_cons, List.range']
      · intro row hrow
        rcases List.mem_cons.mp hrow with h | h
        · rw [h]
        · exact (ih (start + 1)).2 row h

/-- Witness for C4 at a concrete input. -/
theorem insertBan_ordering_witness :
    insertBan exampleResolver exampleDbEU [exampleEU] = .ok (1,
      { exampleDbEU with bans := (exampleDbEU.bans
          ++ banRowsFor exampleResolver 1 0 0 exampleEU.blueBans
          ++ banRowsFor exampleResolver 1 1 0 exampleEU.redBans) }) :=
  (insertBan_ordering exampleResolver exampleDbEU exampleEU 1).1 rfl rfl

/-- C5: per-entry champion resolution: a name that resolves directly is
written with its direct id; a name that fails directly but has an alias
is written with the id resolved from the alias form; when both fail the
id is null, and in every case the entry is still written in its
positional slot (the row lists keep one row per entry, in order). -/
theorem resolveChampion_chain (R : Resolver) (name a : String) (i : Nat)
    (gid side start : Nat) (l : List String) (lp : List (String × Nat)) :
    (R.championIdFromName name = some i → resolveChampion R name = some i) ∧
    (R.championIdFromName name = none → R.convertChampionAlias name = some a →
      resolveChampion R name = R.championIdFromName a) ∧
    (R.championIdFromName name = none → R.convertChampionAlias name = none →
      resolveChampion R name = none) ∧
    ((banRowsFor R gid side start l).map (fun r => r.championId)
        = l.map (selectionChampionId R)) ∧
    ((pickRowsFor R gid side start lp).map (fun r => r.championId)
        = lp.map (fun e => selectionChampionId R e.1)) := by
  refine ⟨?_, ?_, ?_, ?_, ?_⟩
  · intro h; simp only [resolveChampion, h]
  · intro h1 h2; simp only [resolveChampion, h1, h2]
  · intro h1 h2; simp only [resolveChampion, h1, h2]
  · induction l generalizing start with
    | nil => rfl
    | cons x rest ih => simp only [banRowsFor, List.map_cons, ih]
  · induction lp generalizing start with
    | nil => rfl
    | cons x rest ih =>
      obtain ⟨nm, pos⟩ := x
      simp only [pickRowsFor, List.map_cons, ih]

/-- Witness for C5 at a concrete resolver: `"A"` resolves directly,
`"Blitz"` only through its alias `"Blitzcrank"`, `"Unknown"` not at
all. -/
theorem resolveChampion_chain_witness :
    resolveChampion exampleResolver "A" = some 10 ∧
    resolveChampion exampleResolver "Blitz"
      = exampleResolver.championIdFromName "Blitzcrank" ∧
    resolveChampion exampleResolver "Unknown" = none :=
  ⟨(resolveChampion_chain exampleResolver "A" "A" 10 1 0 0 [] []).1 rfl,
   (resolveChampion_chain exampleResolver "Blitz" "Blitzcrank" 13 1 0 0 [] []).2.1 rfl rfl,
   (resolveChampion_chain exampleResolver "Unknown" "x" 0 1 0 0 [] []).2.2.1 rfl rfl⟩

/-- C6: the recovery path of `getGameId` for a missing game does not
create the game and return its id (as the spec and the function's own
docstring describe); it raises `NameError`, because line 114 of
`draftDbOps.py` reads `insertGame(cursor,[game])` and `game` is an
undefined name inside `getGameId`.  Evaluated here at a concrete missing
game. -/
theorem getGameId_missing_raises :
    getGameId emptyDb exampleMSI = .error (PyError.nameError "game") := rfl

/-- C7: the id-resolution loops cannot run forever: the team-resolution
loop of `insertGame` reaches a decision within two iterations (extra fuel
never changes the outcome and fuel 2 is never exhausted, because one
`insertTeam` call makes both display-name lookups succeed), and when the
game lookup of `getGameId` fails the loop is exited by a fatal error on
its first iteration instead of retrying. -/
theorem idResolution_bounded (fuel : Nat) (db : Db) (g : GameData) (t : String) :
    (resolveTeamIds (fuel + 2) db g = resolveTeamIds 2 db g) ∧
    (resolveTeamIds 2 db g ≠ .ok none) ∧
    (getTournamentData g = .ok t → selectGameId db t g.tournGameId = none →
      getGameId db g = .error (PyError.nameError "game")) := by
  refine ⟨resolveTeamIds_fuel_irrelevant fuel db g,
    resolveTeamIds_two_ne_none db g, ?_⟩
  intro h1 h2
  simp only [getGameId, h1, h2]

/-- Witness for C7 at a concrete input. -/
theorem idResolution_bounded_witness :
    resolveTeamIds (1 + 2) emptyDb exampleEU = resolveTeamIds 2 emptyDb exampleEU ∧
    getGameId emptyDb exampleEU = .error (PyError.nameError "game") :=
  ⟨(idResolution_bounded 1 emptyDb exampleEU "2017/Summer/EU").1,
   (idResolution_bounded 1 emptyDb exampleEU "2017/Summer/EU").2.2 rfl rfl⟩

/-- C8: normalization fails on unknown names: when `split` is present and
the region is not in `regionsDict`, or when `split` is absent and the
year-stripped region is not in `internationalEventsDict`, no canonical
key is produced. -/
theorem getTournamentData_unknown_fails (g : GameData) :
    ((∃ sp, g.split = some sp) → regionsDict g.region = none →
      ∀ s, getTournamentData g ≠ .ok s) ∧
    (g.split = none →
      internationalEventsDict (String.mk (stripYearRuns g.region.data)) = none →
      ∀ s, getTournamentData g ≠ .ok s) := by
  constructor
  · rintro ⟨sp, hsp⟩ hab s
    unfold getTournamentData
    cases hy : firstDigitRun (yearSource g).data with
    | none => simp
    | some y => simp [hsp, hab]
  · intro hsp hab s
    unfold getTournamentData
    cases hy : firstDigitRun (yearSource g).data with
    | none => simp
    | some y => simp [hsp, hab]

/-- A record with a region outside the tracked enumeration (split
present). -/
def exampleUnknownRegion : GameData :=
  { exampleEU with region := "Oceania" }

/-- A record whose year-stripped region is not a known international
event (split absent). -/
def exampleUnknownEvent : GameData :=
  { exampleMSI with region := "2019_All-Star_Event" }

/-- Witness for C8 at concrete inputs. -/
theorem getTournamentData_unknown_fails_witness :
    getTournamentData exampleUnknownRegion ≠ .ok "2017/Summer/OCE" ∧
    getTournamentData exampleUnknownEvent ≠ .ok "2019/ASE" :=
  ⟨(getTournamentData_unknown_fails exampleUnknownRegion).1 ⟨"Summer", rfl⟩ rfl _,
   (getTournamentData_unknown_fails exampleUnknownEvent).2 rfl rfl _⟩

/-- Number of `team` rows carrying a given display name. -/
def countName (ts : List TeamRow) (n : String) : Nat :=
  (ts.filter fun r => r.displayName == n).length

theorem find?_name_none_iff {ts : List TeamRow} {n : String} :
    ts.find? (fun r => r.displayName == n) = none ↔ countName ts n = 0 := by
  rw [List.find?_eq_none]
  unfold countName
  rw [List.length_eq_zero, List.filter_eq_nil_iff]

theorem countName_ifAbsent_other {db : Db} {r : Option String} {m n : String}
    (h : m ≠ n) :
    countName (insertTeamIfAbsent db r m).teams n = countName db.teams n := by
  unfold insertTeamIfAbsent
  cases hf : db.teams.find? (fun t => t.displayName == m) with
  | some x => rfl
  | none =>
    show countName (db.teams ++ [_]) n = _
    unfold countName
    rw [List.filter_append]
    simp [h]

theorem countName_ifAbsent_absent {db : Db} {r : Option String} {n : String}
    (h : countName db.teams n = 0) :
    countName (insertTeamIfAbsent db r n).teams n = 1 := by
  unfold insertTeamIfAbsent
  rw [find?_name_none_iff.mpr h]
  show countName (db.teams ++ [_]) n = 1
  unfold countName at h ⊢
  rw [List.filter_append, List.length_append, h]
  simp

theorem ifAbsent_present {db : Db} {r : Option String} {n : String}
    (h : countName db.teams n ≠ 0) :
    insertTeamIfAbsent db r n = db := by
  unfold insertTeamIfAbsent
  cases hf : db.teams.find? (fun t => t.displayName == n) with
  | some x => rfl
  | none => exact absurd (find?_name_none_iff.mp hf) h

theorem insertTeamOne_countName {db db2 : Db} {g : GameData} {n : String}
    (h : insertTeamOne db g = .ok db2) :
    (countName db.teams n = 0 → (n = g.blueTeam ∨ n = g.redTeam) →
      countName db2.teams n = 1) ∧
    (countName db.teams n = 1 → countName db2.teams n = 1) := by
  unfold insertTeamOne at h
  cases hr : teamRegion g with
  | error e => rw [hr] at h; exact absurd h (by simp)
  | ok region =>
    rw [hr] at h
    simp only [Except.ok.injEq] at h
    constructor
    · intro h0 hn
      rw [← h]
      by_cases hb : g.blueTeam = n
      · subst hb
        have h1 : countName (insertTeamIfAbsent db region g.blueTeam).teams g.blueTeam = 1 :=
          countName_ifAbsent_absent h0
        by_cases hrn : g.redTeam = g.blueTeam
        · rw [hrn, ifAbsent_present (by rw [h1]; exact one_ne_zero)]
          exact h1
        · rw [countName_ifAbsent_other hrn]
          exact h1
      · rcases hn with hn | hn
        · exact absurd hn.symm hb
        · subst hn
          have h1 : countName (insertTeamIfAbsent db region g.blueTeam).teams g.redTeam = 0 := by
            rw [countName_ifAbsent_other hb]; exact h0
          exact countName_ifAbsent_absent h1
    · intro h1
      rw [← h]
      have hmid : countName (insertTeamIfAbsent db region g.blueTeam).teams n = 1 := by
        by_cases hb : g.blueTeam = n
        · rw [ifAbsent_present (by rw [hb, h1]; exact one_ne_zero)]
          exact h1
        · rw [countName_ifAbsent_other hb]; exact h1
      by_cases hrn : g.redTeam = n
      · rw [ifAbsent_present (by rw [hrn, hmid]; exact one_ne_zero)]
        exact hmid
      · rw [countName_ifAbsent_other hrn]
        exact hmid

theorem selectTeamId_append {db db2 : Db} {n : String} {i : Nat}
    (h : ∃ l, db2.teams = db.teams ++ l) (hs : selectTeamId db n = some i) :
    selectTeamId db2 n = some i := by
  obtain ⟨l, hl⟩ := h
  unfold selectTeamId at hs ⊢
  rw [hl]
  cases hf : db.teams.find? (fun t => t.displayName == n) with
  | none => rw [hf] at hs; simp at hs
  | some x => rw [find?_append_left hf]; rw [hf] at hs; exact hs

/-- C9: team display_name uniqueness: `insertTeam` inserts a team only
when no row with that display name exists, so inserting the same display
name across two records leaves exactly one row for it; team rows are only
ever appended (never updated or deleted), and an id once resolved for a
name stays the id that later lookups return. -/
theorem insertTeam_unique (db db1 db2 : Db) (g1 g2 : GameData) (n : String)
    (i : Nat) (r : Option String) :
    (selectTeamId db n = some i → insertTeamIfAbsent db r n = db) ∧
    (insertTeam db [g1] = .ok (1, db1) → insertTeam db1 [g2] = .ok (1, db2) →
      (∃ l, db2.teams = db.teams ++ l) ∧
      (countName db.teams n = 0 → (n = g1.blueTeam ∨ n = g1.redTeam) →
        countName db2.teams n = 1) ∧
      (selectTeamId db1 n = some i → selectTeamId db2 n = some i)) := by
  constructor
  · intro h
    unfold selectTeamId at h
    unfold insertTeamIfAbsent
    cases hf : db.teams.find? (fun t => t.displayName == n) with
    | some x => rfl
    | none => rw [hf] at h; simp at h
  · intro h1 h2
    obtain ⟨-, hone1⟩ := insertTeam_singleton h1
    obtain ⟨-, hone2⟩ := insertTeam_singleton h2
    obtain ⟨-, -, -, l1, hl1⟩ := insertTeamOne_inv hone1
    obtain ⟨-, -, -, l2, hl2⟩ := insertTeamOne_inv hone2
    refine ⟨⟨l1 ++ l2, by rw [hl2, hl1, List.append_assoc]⟩, ?_, ?_⟩
    · intro h0 hn
      exact (insertTeamOne_countName hone2).2
        ((insertTeamOne_countName hone1).1 h0 hn)
    · intro hs
      exact selectTeamId_append ⟨l2, hl2⟩ hs

/-- The teams inserted by processing `exampleEU` from an empty
database. -/
def exampleDbTeams : Db :=
  { emptyDb with teams := [{ id := 1, region := some "EU", displayName := "FNC" },
                           { id := 2, region := some "EU", displayName := "G2" }] }

/-- Witness for C9 at a concrete input. -/
theorem insertTeam_unique_witness :
    insertTeamIfAbsent exampleDbTeams (some "EU") "FNC" = exampleDbTeams ∧
    countName exampleDbTeams.teams "FNC" = 1 ∧
    selectTeamId exampleDbTeams "FNC" = some 1 :=
  have hA := insertTeam_unique exampleDbTeams exampleDbTeams exampleDbTeams
    exampleEU exampleEU "FNC" 1 (some "EU")
  have hB := insertTeam_unique emptyDb exampleDbTeams exampleDbTeams exampleEU
    exampleEU "FNC" 1 (some "EU")
  ⟨hA.1 rfl, (hB.2 rfl rfl).2.1 rfl (Or.inl rfl), (hB.2 rfl rfl).2.2 rfl⟩

/-- C10: every normal return of the four insert operations reports
status 1: the initial `status = 0` is unconditionally overwritten before
the return, so the return value carries no information about whether
anything was written. -/
theorem insert_status_one (fuel : Nat) (R : Resolver) (db dbG dbT dbB dbP : Db)
    (l : List GameData) (s : Nat) :
    (insertGame fuel db l = .ok (some (s, dbG)) → s = 1) ∧
    (insertTeam db l = .ok (s, dbT) → s = 1) ∧
    (insertBan R db l = .ok (s, dbB) → s = 1) ∧
    (insertPick R db l = .ok (s, dbP) → s = 1) := by
  refine ⟨?_, ?_, ?_, ?_⟩
  · intro h
    unfold insertGame at h
    cases hx : insertGameList fuel db l with
    | error e => rw [hx] at h; exact absurd h (by simp)
    | ok o =>
      rw [hx] at h
      cases o with
      | none => exact absurd h (by simp)
      | some dbx =>
        simp only [Except.ok.injEq, Option.some.injEq, Prod.mk.injEq] at h
        exact h.1.symm
  · intro h
    unfold insertTeam at h
    cases hx : insertTeamList db l with
    | error e => rw [hx] at h; exact absurd h (by simp)
    | ok dbx =>
      rw [hx] at h
      simp only [Except.ok.injEq, Prod.mk.injEq] at h
      exact h.1.symm
  · intro h
    unfold insertBan at h
    cases hx : insertBanList R db l with
    | error e => rw [hx] at h; exact absurd h (by simp)
    | ok dbx =>
      rw [hx] at h
      simp only [Except.ok.injEq, Prod.mk.injEq] at h
      exact h.1.symm
  · intro h
    unfold insertPick at h
    cases hx : insertPickList R db l with
    | error e => rw [hx] at h; exact absurd h (by simp)
    | ok dbx =>
      rw [hx] at h
      simp only [Except.ok.injEq, Prod.mk.injEq] at h
      exact h.1.symm

/-- Witness for C10 at concrete inputs: all four operations evaluated on
records that are already fully present (nothing is written) still return
status 1. -/
theorem insert_status_one_witness :
    (1 : Nat) = 1 ∧ (1 : Nat) = 1 ∧ (1 : Nat) = 1 ∧ (1 : Nat) = 1 :=
  have h := insert_status_one 2 exampleResolver exampleDbEU exampleDbEU
    exampleDbEU exampleDbBans exampleDbPicks [exampleEU] 1
  ⟨h.1 rfl, h.2.1 rfl, h.2.2.1 rfl, h.2.2.2 rfl⟩

end DraftDb
